import Mathlib

/-!
Shallow embedding of `src/activity_api.py` (royalguard-api).

The service keeps three independent MongoDB collections:
  * `activity`     — activity records keyed by `_id = user_id` (any JSON value),
                     field `total_activity`, mutated by `update_one` with
                     `$inc` and `upsert=True`;
  * `roblox_logs`  — log entries keyed by `_id = md5 hexdigest` of
                     `f"{log_type}_{player_name}_{message}"`;
  * `licenses`     — license records keyed by `_id = int(user_id)` with
                     fields `issued_by`, `issued_at`.

Each collection is embedded as a list of documents; the Mongo primary-key
uniqueness on `_id` is part of the operations (`update_one` matches the first
document with the key, `insert_one` raises a duplicate-key error when the key
is present, `delete_one` removes the first match).  Request handlers become
pure functions from (configuration, request, store state, injected storage
failure) to (result, new store state); the injected failure `fail : Option
String` stands for an exception raised by the storage driver inside the
handler's `try` block, carrying the exception's message `str(e)`.
-/

namespace RoyalGuard

/-- JSON scalar values as they occur in request bodies of this API:
integers, strings, and `null`.  (`user_id` in `/update_activity` is stored
without any coercion, so its JSON type matters; `int(...)` in the license
handler behaves differently on ints, strings and `null`.) -/
inductive JVal where
  | jnull
  | jint (n : Int)
  | jstr (s : String)
  deriving DecidableEq, Repr

def isDigitChar (c : Char) : Bool :=
  48 ≤ c.toNat && c.toNat ≤ 57

def parseDigitsAux : List Char → Nat → Option Nat
  | [], acc => some acc
  | c :: cs, acc =>
      if isDigitChar c then parseDigitsAux cs (10 * acc + (c.toNat - 48)) else none

/-- Python `int(s)` on a string: an optional sign followed by at least one
decimal digit (surrounding whitespace and digit-group underscores, which
Python also tolerates, are not modelled); `none` is Python's `ValueError`. -/
def pyParseInt (s : String) : Option Int :=
  match s.toList with
  | [] => none
  | c :: rest =>
      if c = '-' then
        match rest with
        | [] => none
        | _ => (parseDigitsAux rest 0).map (fun n => -(n : Int))
      else if c = '+' then
        match rest with
        | [] => none
        | _ => (parseDigitsAux rest 0).map (fun n => (n : Int))
      else (parseDigitsAux (c :: rest) 0).map (fun n => (n : Int))

/-- Result of Python `int(x)`: identity on an int, decimal parsing on a
string (`ValueError` when the string is not a valid integer literal),
`TypeError` on `None`. -/
inductive PyIntResult where
  | ok (n : Int)
  | valueError
  | typeError
  deriving DecidableEq, Repr

def pyInt : JVal → PyIntResult
  | .jint n => .ok n
  | .jstr s =>
      match pyParseInt s with
      | some n => .ok n
      | none => .valueError
  | .jnull => .typeError

/-- Python truthiness of an optional string: `None` and `""` are falsy. -/
def truthy : Option String → Bool
  | none => false
  | some s => s != ""

/-- Python `a or b` on optional strings (used in
`request.headers.get('X-API-Key') or request.json.get('api_key')`). -/
def pyOr (a b : Option String) : Option String :=
  if truthy a then a else b

/-! ## Activity collection and `POST /update_activity` -/

/-- The `activity` collection: documents `{_id: user_id, total_activity: t}`.
The `_id` is exactly the JSON value the client supplied. -/
abbrev ActivityStore := List (JVal × Int)

/-- Mongo `activity_collection.find_one({'_id': u})`, projected to `total_activity`. -/
def findActivity : ActivityStore → JVal → Option Int
  | [], _ => none
  | (k, t) :: rest, u => if k = u then some t else findActivity rest u

/-- Mongo `activity_collection.update_one({'_id': u}, {'$inc': {'total_activity': m}},
upsert=True)`: increment the first (unique) document keyed `u`, or append a
fresh document with `total_activity = m` when none exists. -/
def updateOneInc : ActivityStore → JVal → Int → ActivityStore
  | [], u, m => [(u, m)]
  | (k, t) :: rest, u, m =>
      if k = u then (k, t + m) :: rest else (k, t) :: updateOneInc rest u m

/-- JSON body of `POST /update_activity`; each field may be absent. -/
structure UABody where
  user_id : Option JVal
  activity_minutes : Option Int
  api_key : Option String
  deriving DecidableEq, Repr

/-- Responses of `update_activity`, one constructor per `return` site. -/
inductive UAResult where
  | invalidData              -- 400 {'status':'error','message':'Invalid data'}
  | unauthorized             -- 401 {'status':'error','message':'Invalid or missing API key'}
  | dbUnavailable            -- 503 {'status':'error','message':'Database not available'}
  | success                  -- 200 {'status':'success'}
  | storageError (msg : String)  -- 500 {'status':'error','message': str(e)}
  deriving DecidableEq, Repr

def uaCode : UAResult → Nat
  | .invalidData => 400
  | .unauthorized => 401
  | .dbUnavailable => 503
  | .success => 200
  | .storageError _ => 500

/-- The `message` field of the JSON response of `update_activity`. -/
def uaMessage : UAResult → Option String
  | .invalidData => some "Invalid data"
  | .unauthorized => some "Invalid or missing API key"
  | .dbUnavailable => some "Database not available"
  | .success => none
  | .storageError m => some m

/-- Handler `update_activity` (src/activity_api.py lines 65–97).
`data = none` models a request whose JSON body is absent or the empty dict
(`not data`); `collInit` models `activity_collection is not None`; `fail`
models an exception raised by `update_one`. -/
def update_activity (API_KEY : String) (headerKey : Option String)
    (data : Option UABody) (collInit : Bool) (fail : Option String)
    (store : ActivityStore) : UAResult × ActivityStore :=
  match data with
  | none => (.invalidData, store)
  | some d =>
    match d.user_id, d.activity_minutes with
    | some u, some m =>
        if d.api_key = some API_KEY ∨ headerKey = some API_KEY then
          if collInit then
            match fail with
            | some msg => (.storageError msg, store)
            | none => (.success, updateOneInc store u m)
          else (.dbUnavailable, store)
        else (.unauthorized, store)
    | _, _ => (.invalidData, store)

/-! ## Log collection and `POST /log_event` -/

/-- The fields of `log_data` this handler reads (`player_name`, `message` go
into the fingerprint; `username` only appears in a debug print).  Any of them
may be absent. -/
structure LogData where
  player_name : Option String
  message : Option String
  username : Option String
  deriving DecidableEq, Repr

/-- JSON body of `POST /log_event`.  `log_data = none` models an absent (or
empty, hence falsy) `log_data` object. -/
structure LEBody where
  api_key : Option String
  log_type : Option String
  log_data : Option LogData
  timestamp : Option JVal
  deriving DecidableEq, Repr

/-- The string the source feeds to `hashlib.md5(...)`:
`f"{log_type}_{log_data.get('player_name', '')}_{log_data.get('message', '')}"`. -/
def fingerprintInput (log_type player message : String) : String :=
  log_type ++ "_" ++ player ++ "_" ++ message

/-- Digest `hashlib.md5(fingerprintInput ...).hexdigest()`.  md5 is a deterministic
function of its input, so equal inputs give equal digests; the design relies
on it being collision-resistant, i.e. distinct inputs give distinct digests.
We model the digest by the (injectively encoded) input string itself, which
realises exactly those two properties. -/
def log_hash (log_type player message : String) : String :=
  fingerprintInput log_type player message

/-- A document of the `roblox_logs` collection (`log_entry` in the source).
`created_at` is the server-assigned ingestion time (`datetime.utcnow()`),
modelled as an opaque tick. -/
structure LogEntry where
  id : String                -- `_id`: the fingerprint hash
  log_type : String
  log_data : LogData
  timestamp : Option JVal
  processed : Bool
  created_at : Nat
  deriving DecidableEq, Repr

abbrev LogStore := List LogEntry

/-- Message of the duplicate-key exception MongoDB raises when `insert_one`
hits an existing `_id`. -/
def dupKeyMsg : String := "E11000 duplicate key error"

/-- Mongo `db.roblox_logs.insert_one(log_entry)` with the store's `_id` uniqueness:
raises (returns `.error`) the duplicate-key message when the key is present,
otherwise appends.  `fail = some msg` injects any other driver exception. -/
def logInsertOne (fail : Option String) (store : LogStore) (e : LogEntry) :
    Except String LogStore :=
  match fail with
  | some msg => .error msg
  | none =>
      if store.any (fun x => x.id == e.id) then .error dupKeyMsg
      else .ok (store ++ [e])

def startsWithChars : List Char → List Char → Bool
  | _, [] => true
  | [], _ :: _ => false
  | c :: cs, d :: ds => c == d && startsWithChars cs ds

def containsChars : List Char → List Char → Bool
  | [], pat => pat.isEmpty
  | c :: cs, pat => startsWithChars (c :: cs) pat || containsChars cs pat

def dupNeedle : String := "duplicate key"

/-- The handler's duplicate test: `"duplicate key" in str(e).lower()`.
Lower-casing is applied character by character (the needle and the store's
duplicate-key message are ASCII, where this agrees with `str.lower()`). -/
def isDupKeyMsg (msg : String) : Bool :=
  containsChars (msg.toList.map Char.toLower) dupNeedle.toList

/-- Responses of `log_event`, one constructor per `return` site. -/
inductive LEResult where
  | unauthorized       -- 401 {'error': 'Invalid API key'}
  | missingFields      -- 400 {'error': 'Missing log_type or log_data'}
  | storedOk           -- 200 {'success': True, 'message': 'Log stored for processing'}
  | duplicateIgnored   -- 200 {'success': True, 'message': 'Duplicate log ignored'}
  | internalError      -- 500 {'error': 'Internal server error'}
  deriving DecidableEq, Repr

def leCode : LEResult → Nat
  | .unauthorized => 401
  | .missingFields => 400
  | .storedOk => 200
  | .duplicateIgnored => 200
  | .internalError => 500

/-- Whether the JSON response carries `'success': True`. -/
def leSuccess : LEResult → Bool
  | .storedOk => true
  | .duplicateIgnored => true
  | _ => false

/-- The `error` field of the JSON response, when present. -/
def leErrorMsg : LEResult → Option String
  | .unauthorized => some "Invalid API key"
  | .missingFields => some "Missing log_type or log_data"
  | .internalError => some "Internal server error"
  | _ => none

/-- Handler `log_event` (src/activity_api.py lines 99–145).
The credential is `headers.get('X-API-Key') or request.json.get('api_key')`
(Python `or`: the body key is consulted only when the header is absent or
empty).  `dbInit` models `db is not None`: the source never checks it here,
so an uninitialised `db` raises an `AttributeError` at `db.roblox_logs`,
whose message does not contain "duplicate key", and the outer `except`
turns it into the generic 500.  `fail` models any other exception raised by
`insert_one`; `now` is the server-assigned `created_at`. -/
def log_event (API_KEY : String) (headerKey : Option String) (body : LEBody)
    (dbInit : Bool) (now : Nat) (fail : Option String) (store : LogStore) :
    LEResult × LogStore :=
  match pyOr headerKey body.api_key with
  | none => (.unauthorized, store)
  | some k =>
    if k == "" || k != API_KEY then (.unauthorized, store)
    else
      match body.log_type, body.log_data with
      | some lt, some ld =>
          if lt == "" then (.missingFields, store)
          else
            let h := log_hash lt (ld.player_name.getD "") (ld.message.getD "")
            let entry : LogEntry := ⟨h, lt, ld, body.timestamp, false, now⟩
            if dbInit then
              match logInsertOne fail store entry with
              | .ok newStore => (.storedOk, newStore)
              | .error msg =>
                  if isDupKeyMsg msg then (.duplicateIgnored, store)
                  else (.internalError, store)
            else (.internalError, store)
      | _, _ => (.missingFields, store)

/-! ## License collection and `/license` (GET / POST / DELETE) -/

/-- A document of the `licenses` collection:
`{_id: user_id, issued_by: ..., issued_at: datetime.utcnow().isoformat()}`. -/
structure LicenseRecord where
  id : Int
  issued_by : Int
  issued_at : String
  deriving DecidableEq, Repr

abbrev LicStore := List LicenseRecord

/-- Mongo `licenses_collection.find_one({'_id': uid})`. -/
def findLicense (store : LicStore) (uid : Int) : Option LicenseRecord :=
  store.find? (fun r => r.id == uid)

/-- Mongo `licenses_collection.delete_one({'_id': uid})`: removes the first match. -/
def deleteLicense : LicStore → Int → LicStore
  | [], _ => []
  | r :: rest, uid => if r.id == uid then rest else r :: deleteLicense rest uid

/-- JSON body of `POST /license`; fields may be absent, and when present are
arbitrary JSON values (the handler applies `int(...)` itself). -/
structure LicBody where
  user_id : Option JVal
  issued_by : Option JVal
  deriving DecidableEq, Repr

inductive Method where
  | get
  | post
  | delete
  deriving DecidableEq, Repr

/-- A request to `/license`: the method, the `X-API-Key` header (the
`require_api_key` decorator reads only the header), the `user_id` query
parameter (GET/DELETE), and the JSON body (POST). -/
structure LicReq where
  method : Method
  headerKey : Option String
  query_user_id : Option String
  body : Option LicBody
  deriving DecidableEq, Repr

/-- Responses of the `license` handler, one constructor per `return` site. -/
inductive LicResult where
  | unauthorized                    -- 401 (decorator)
  | dbUnavailable                   -- 503 'Database not available'
  | missingParam                    -- 400 'user_id parameter required'
  | invalidUserIdFormat             -- 400 'Invalid user_id format' (GET/DELETE)
  | invalidIssueFormat              -- 400 'Invalid user_id or issued_by format' (POST)
  | missingBody                     -- 400 'user_id and issued_by required'
  | queryFound (issued_by : Int) (issued_at : String)  -- 200, has_license: True
  | queryNotFound                   -- 200, has_license: False
  | alreadyLicensed                 -- 409 'User already has a license'
  | issued                          -- 200 'License issued successfully'
  | notLicensed                     -- 404 'User does not have a license'
  | revoked                         -- 200 'License revoked successfully'
  | internalError                   -- 500 'Internal server error' (outer except)
  deriving DecidableEq, Repr

def licCode : LicResult → Nat
  | .unauthorized => 401
  | .dbUnavailable => 503
  | .missingParam => 400
  | .invalidUserIdFormat => 400
  | .invalidIssueFormat => 400
  | .missingBody => 400
  | .queryFound _ _ => 200
  | .queryNotFound => 200
  | .alreadyLicensed => 409
  | .issued => 200
  | .notLicensed => 404
  | .revoked => 200
  | .internalError => 500

/-- The `message` field of the JSON response, when present. -/
def licMessage : LicResult → Option String
  | .unauthorized => some "Invalid or missing API key"
  | .dbUnavailable => some "Database not available"
  | .missingParam => some "user_id parameter required"
  | .invalidUserIdFormat => some "Invalid user_id format"
  | .invalidIssueFormat => some "Invalid user_id or issued_by format"
  | .missingBody => some "user_id and issued_by required"
  | .alreadyLicensed => some "User already has a license"
  | .issued => some "License issued successfully"
  | .notLicensed => some "User does not have a license"
  | .revoked => some "License revoked successfully"
  | .internalError => some "Internal server error"
  | _ => none

/-- The `has_license` field of a GET response, when present. -/
def licHasLicense : LicResult → Option Bool
  | .queryFound _ _ => some true
  | .queryNotFound => some false
  | _ => none

/-- Handler `license` (src/activity_api.py lines 147–234).
`require_api_key` reads the `X-API-Key` header only.  `dbInit` models
`db is not None`; `now` is the server-assigned `datetime.utcnow().isoformat()`
used at issuance.  `fail = some msg` injects an exception raised by the
collection operation of the dispatched branch (`find_one`); the outer
`except` converts it into the generic 500.  In the POST branch, Python
evaluates `int(user_id)` then `int(issued_by)`: a `ValueError` is caught and
answered 400, while a `TypeError` (e.g. on `null`) escapes the inner
`except ValueError` and reaches the outer handler as a 500. -/
def license (API_KEY : String) (req : LicReq) (dbInit : Bool) (now : String)
    (fail : Option String) (store : LicStore) : LicResult × LicStore :=
  match req.headerKey with
  | none => (.unauthorized, store)
  | some k =>
    if k == "" || k != API_KEY then (.unauthorized, store)
    else if dbInit then
      match req.method with
      | .get =>
          match req.query_user_id with
          | none => (.missingParam, store)
          | some su =>
              if su == "" then (.missingParam, store)
              else
                match pyParseInt su with
                | none => (.invalidUserIdFormat, store)
                | some uid =>
                    match fail with
                    | some _ => (.internalError, store)
                    | none =>
                        match findLicense store uid with
                        | some r => (.queryFound r.issued_by r.issued_at, store)
                        | none => (.queryNotFound, store)
      | .post =>
          match req.body with
          | none => (.missingBody, store)
          | some b =>
              match b.user_id, b.issued_by with
              | some u, some ib =>
                  match pyInt u with
                  | .valueError => (.invalidIssueFormat, store)
                  | .typeError => (.internalError, store)
                  | .ok uid =>
                      match pyInt ib with
                      | .valueError => (.invalidIssueFormat, store)
                      | .typeError => (.internalError, store)
                      | .ok ibid =>
                          match fail with
                          | some _ => (.internalError, store)
                          | none =>
                              match findLicense store uid with
                              | some _ => (.alreadyLicensed, store)
                              | none => (.issued, store ++ [⟨uid, ibid, now⟩])
              | _, _ => (.missingBody, store)
      | .delete =>
          match req.query_user_id with
          | none => (.missingParam, store)
          | some su =>
              if su == "" then (.missingParam, store)
              else
                match pyParseInt su with
                | none => (.invalidUserIdFormat, store)
                | some uid =>
                    match fail with
                    | some _ => (.internalError, store)
                    | none =>
                        match findLicense store uid with
                        | none => (.notLicensed, store)
                        | some _ => (.revoked, deleteLicense store uid)
    else (.dbUnavailable, store)

/-! ## Derived notions used by the verification -/

/-- A sequence of `POST /update_activity` calls for user `u` with the listed
minutes, all authenticated by the `X-API-Key` header, against an available
collection with no storage failures; returns the final store. -/
def runActivityCalls (API_KEY : String) (u : JVal) : List Int → ActivityStore → ActivityStore
  | [], s => s
  | m :: ms, s =>
      runActivityCalls API_KEY u ms
        (update_activity API_KEY (some API_KEY) (some ⟨some u, some m, none⟩) true none s).2

/-- A sequence of `POST /log_event` calls (header key, body, server tick),
against an available store with no injected failures; returns the list of
results and the final store. -/
def runLogSeq (API_KEY : String) : List (Option String × LEBody × Nat) → LogStore →
    List LEResult × LogStore
  | [], s => ([], s)
  | (hk, b, n) :: rest, s =>
      let r := log_event API_KEY hk b true n none s
      let rr := runLogSeq API_KEY rest r.2
      (r.1 :: rr.1, rr.2)

/-- At most one license record per user identifier. -/
def licUnique (s : LicStore) : Prop :=
  List.Pairwise (fun a b => a.id ≠ b.id) s

/-- License-store states reachable from the empty collection through the
`license` handler (with arbitrary configuration, requests, store health and
injected failures). -/
inductive LicReachable : LicStore → Prop where
  | init : LicReachable []
  | step (API_KEY : String) (req : LicReq) (dbInit : Bool) (now : String)
      (fail : Option String) {s : LicStore} :
      LicReachable s → LicReachable (license API_KEY req dbInit now fail s).2

/-! ## Lemmas about the activity collection -/

theorem findActivity_updateOneInc_self (s : ActivityStore) (u : JVal) (m : Int) :
    findActivity (updateOneInc s u m) u = some ((findActivity s u).getD 0 + m) := by
  induction s with
  | nil => simp [findActivity, updateOneInc]
  | cons kt rest ih =>
      obtain ⟨k, t⟩ := kt
      by_cases h : k = u
      · subst h
        simp [findActivity, updateOneInc]
      · simp [findActivity, updateOneInc, h, ih]

theorem findActivity_updateOneInc_ne (s : ActivityStore) (u v : JVal) (m : Int)
    (huv : u ≠ v) : findActivity (updateOneInc s u m) v = findActivity s v := by
  induction s with
  | nil => simp [findActivity, updateOneInc, huv]
  | cons kt rest ih =>
      obtain ⟨k, t⟩ := kt
      by_cases h : k = u
      · subst h
        simp [findActivity, updateOneInc, huv]
      · by_cases h2 : k = v
        · subst h2
          simp [findActivity, updateOneInc, h]
        · simp [findActivity, updateOneInc, h, h2, ih]

theorem update_activity_success (API_KEY : String) (hk : Option String)
    (d : UABody) (u : JVal) (m : Int) (s : ActivityStore)
    (hu : d.user_id = some u) (hm : d.activity_minutes = some m)
    (hauth : d.api_key = some API_KEY ∨ hk = some API_KEY) :
    update_activity API_KEY hk (some d) true none s = (.success, updateOneInc s u m) := by
  obtain ⟨du, dm, dk⟩ := d
  simp only [UABody.user_id] at hu
  simp only [UABody.activity_minutes] at hm
  subst hu; subst hm
  simp [update_activity, hauth]

theorem runActivityCalls_total (API_KEY : String) (u : JVal) (ms : List Int)
    (s : ActivityStore) (t : Int) (h : findActivity s u = some t) :
    findActivity (runActivityCalls API_KEY u ms s) u = some (t + ms.sum) := by
  induction ms generalizing s t with
  | nil => simpa [runActivityCalls] using h
  | cons m rest ih =>
      simp only [runActivityCalls]
      rw [update_activity_success API_KEY (some API_KEY) ⟨some u, some m, none⟩ u m s rfl rfl
        (Or.inr rfl)]
      have h1 : findActivity (updateOneInc s u m) u = some (t + m) := by
        rw [findActivity_updateOneInc_self, h]
        rfl
      rw [ih (updateOneInc s u m) (t + m) h1]
      simp [add_assoc]

/-- C1: starting from a store with no record for `u`, a non-empty sequence of
successful `POST /update_activity` calls with minutes `m1, m2, ...` leaves
`total_activity` for `u` equal to `m1 + m2 + ...`: the first call creates the
record with `total_activity = m1`, each later call increments it, and repeated
identical calls accumulate (the list `ms` may contain duplicates). -/
theorem recordActivity_accumulates (API_KEY : String) (u : JVal) (ms : List Int)
    (s0 : ActivityStore) (h0 : findActivity s0 u = none) (hne : ms ≠ []) :
    (∀ m s, (update_activity API_KEY (some API_KEY)
        (some ⟨some u, some m, none⟩) true none s).1 = UAResult.success) ∧
    findActivity (runActivityCalls API_KEY u ms s0) u = some ms.sum := by
  refine ⟨fun m s => by
    rw [update_activity_success API_KEY (some API_KEY) ⟨some u, some m, none⟩ u m s rfl rfl
      (Or.inr rfl)], ?_⟩
  match ms with
  | [] => exact absurd rfl hne
  | m :: rest =>
      simp only [runActivityCalls]
      rw [update_activity_success API_KEY (some API_KEY) ⟨some u, some m, none⟩ u m s0 rfl rfl
        (Or.inr rfl)]
      have h1 : findActivity (updateOneInc s0 u m) u = some m := by
        rw [findActivity_updateOneInc_self, h0]
        simp
      rw [runActivityCalls_total API_KEY u rest (updateOneInc s0 u m) m h1]
      simp

/-- Witness for C1: user `42`, minutes `[10, 5]`, final total `10 + 5`. -/
theorem recordActivity_accumulates_witness :
    (∀ m s, (update_activity "k" (some "k")
        (some ⟨some (JVal.jint 42), some m, none⟩) true none s).1 = UAResult.success) ∧
    findActivity (runActivityCalls "k" (JVal.jint 42) [10, 5] []) (JVal.jint 42)
      = some ([10, 5] : List Int).sum :=
  recordActivity_accumulates "k" (JVal.jint 42) [10, 5] [] (by decide) (by decide)

/-- C10: `update_activity` applies no coercion: the record key is exactly the
JSON value supplied (so `jstr "42"` and `jint 42` are two distinct records
whose totals never mix), and the supplied minutes are added unconverted. -/
theorem recordActivity_no_coercion (API_KEY : String) (u v : JVal) (m : Int)
    (s : ActivityStore) (huv : u ≠ v) :
    (update_activity API_KEY (some API_KEY) (some ⟨some u, some m, none⟩) true none s).1
      = UAResult.success ∧
    findActivity (update_activity API_KEY (some API_KEY)
        (some ⟨some u, some m, none⟩) true none s).2 u
      = some ((findActivity s u).getD 0 + m) ∧
    findActivity (update_activity API_KEY (some API_KEY)
        (some ⟨some u, some m, none⟩) true none s).2 v
      = findActivity s v := by
  rw [update_activity_success API_KEY (some API_KEY) ⟨some u, some m, none⟩ u m s rfl rfl
    (Or.inr rfl)]
  exact ⟨rfl, findActivity_updateOneInc_self s u m, findActivity_updateOneInc_ne s u v m huv⟩

/-- Witness for C10: the string key `"42"` and the integer key `42` do not
mix: incrementing `jstr "42"` by 10 over a store holding `jint 42 ↦ 5`
leaves the integer record untouched. -/
theorem recordActivity_no_coercion_witness :
    (update_activity "k" (some "k")
        (some ⟨some (JVal.jstr "42"), some 10, none⟩) true none [(JVal.jint 42, 5)]).1
      = UAResult.success ∧
    findActivity (update_activity "k" (some "k")
        (some ⟨some (JVal.jstr "42"), some 10, none⟩) true none [(JVal.jint 42, 5)]).2
        (JVal.jstr "42")
      = some ((findActivity [(JVal.jint 42, 5)] (JVal.jstr "42")).getD 0 + 10) ∧
    findActivity (update_activity "k" (some "k")
        (some ⟨some (JVal.jstr "42"), some 10, none⟩) true none [(JVal.jint 42, 5)]).2
        (JVal.jint 42)
      = findActivity [(JVal.jint 42, 5)] (JVal.jint 42) :=
  recordActivity_no_coercion "k" (JVal.jstr "42") (JVal.jint 42) 10 [(JVal.jint 42, 5)]
    (by decide)

/-! ## Lemmas about the log collection -/

theorem isDupKeyMsg_dupKeyMsg : isDupKeyMsg dupKeyMsg = true := by decide

theorem pyOr_header (API_KEY : String) (hAK : API_KEY ≠ "") (b : Option String) :
    pyOr (some API_KEY) b = some API_KEY := by
  simp [pyOr, truthy, hAK]

theorem log_event_stores (API_KEY : String) (hAK : API_KEY ≠ "") (b : LEBody)
    (lt : String) (ld : LogData) (now : Nat) (s : LogStore)
    (hlt : b.log_type = some lt) (hne : lt ≠ "") (hld : b.log_data = some ld)
    (habs : s.any
        (fun e => e.id == log_hash lt (ld.player_name.getD "") (ld.message.getD "")) = false) :
    log_event API_KEY (some API_KEY) b true now none s =
      (LEResult.storedOk,
        s ++ [⟨log_hash lt (ld.player_name.getD "") (ld.message.getD ""), lt, ld,
          b.timestamp, false, now⟩]) := by
  have hb : (API_KEY == "" || API_KEY != API_KEY) = false := by simp [hAK]
  have hne2 : (lt == "") = false := by simp [hne]
  simp only [log_event, pyOr_header API_KEY hAK, hb, hlt, hld, hne2, Bool.false_eq_true,
    if_false, if_true, logInsertOne, habs]

theorem log_event_duplicate (API_KEY : String) (hAK : API_KEY ≠ "") (b : LEBody)
    (lt : String) (ld : LogData) (now : Nat) (s : LogStore)
    (hlt : b.log_type = some lt) (hne : lt ≠ "") (hld : b.log_data = some ld)
    (hpres : s.any
        (fun e => e.id == log_hash lt (ld.player_name.getD "") (ld.message.getD "")) = true) :
    log_event API_KEY (some API_KEY) b true now none s = (LEResult.duplicateIgnored, s) := by
  have hb : (API_KEY == "" || API_KEY != API_KEY) = false := by simp [hAK]
  have hne2 : (lt == "") = false := by simp [hne]
  simp only [log_event, pyOr_header API_KEY hAK, hb, hlt, hld, hne2, Bool.false_eq_true,
    if_false, if_true, logInsertOne, hpres, isDupKeyMsg_dupKeyMsg]

theorem runLogSeq_all_duplicate (API_KEY : String) (hAK : API_KEY ≠ "")
    (lt p m : String) (hne : lt ≠ "")
    (calls : List (Option String × LEBody × Nat)) (s : LogStore)
    (hpres : s.any (fun e => e.id == log_hash lt p m) = true)
    (hcalls : ∀ c ∈ calls, c.1 = some API_KEY ∧ c.2.1.log_type = some lt ∧
        ∃ ld, c.2.1.log_data = some ld ∧ ld.player_name.getD "" = p ∧
          ld.message.getD "" = m) :
    (runLogSeq API_KEY calls s).2 = s ∧
    ∀ r ∈ (runLogSeq API_KEY calls s).1, r = LEResult.duplicateIgnored := by
  induction calls with
  | nil => simp [runLogSeq]
  | cons c rest ih =>
      obtain ⟨hk1, b, n⟩ := c
      obtain ⟨hkey, hbt, ld, hld, hp, hm⟩ := hcalls (hk1, b, n) (List.mem_cons_self _ _)
      simp only at hkey hbt hld
      subst hkey
      have hdup : log_event API_KEY (some API_KEY) b true n none s
          = (LEResult.duplicateIgnored, s) := by
        apply log_event_duplicate API_KEY hAK b lt ld n s hbt hne hld
        rw [hp, hm]
        exact hpres
      have hrest := ih (fun c hc => hcalls c (List.mem_cons_of_mem _ hc))
      simp only [runLogSeq, hdup]
      exact ⟨hrest.1, by
        intro r hr
        rcases List.mem_cons.mp hr with h | h
        · exact h
        · exact hrest.2 r h⟩

/-- C2: two or more `POST /log_event` submissions with identical
`(log_type, log_data.player_name, log_data.message)` — even if their
`timestamp`, `log_data.username` or body `api_key` differ — store exactly one
`LogEntry`, and every submission after the first returns the successful
duplicate outcome (`success: true`, HTTP 200), leaving the store unchanged. -/
theorem ingestLog_dedup (API_KEY : String) (hAK : API_KEY ≠ "")
    (b1 : LEBody) (lt : String) (ld1 : LogData) (n1 : Nat) (s0 : LogStore)
    (calls : List (Option String × LEBody × Nat))
    (hlt : b1.log_type = some lt) (hne : lt ≠ "") (hld : b1.log_data = some ld1)
    (habs : s0.any
        (fun e => e.id == log_hash lt (ld1.player_name.getD "") (ld1.message.getD ""))
        = false)
    (hcalls : ∀ c ∈ calls, c.1 = some API_KEY ∧ c.2.1.log_type = some lt ∧
        ∃ ld, c.2.1.log_data = some ld ∧
          ld.player_name.getD "" = ld1.player_name.getD "" ∧
          ld.message.getD "" = ld1.message.getD "") :
    (log_event API_KEY (some API_KEY) b1 true n1 none s0).1 = LEResult.storedOk ∧
    (log_event API_KEY (some API_KEY) b1 true n1 none s0).2
      = s0 ++ [⟨log_hash lt (ld1.player_name.getD "") (ld1.message.getD ""), lt, ld1,
          b1.timestamp, false, n1⟩] ∧
    ((log_event API_KEY (some API_KEY) b1 true n1 none s0).2.countP
        (fun e => e.id == log_hash lt (ld1.player_name.getD "") (ld1.message.getD "")))
      = 1 ∧
    (runLogSeq API_KEY calls (log_event API_KEY (some API_KEY) b1 true n1 none s0).2).2
      = (log_event API_KEY (some API_KEY) b1 true n1 none s0).2 ∧
    ∀ r ∈ (runLogSeq API_KEY calls
        (log_event API_KEY (some API_KEY) b1 true n1 none s0).2).1,
      r = LEResult.duplicateIgnored ∧ leSuccess r = true ∧ leCode r = 200 := by
  have hstore := log_event_stores API_KEY hAK b1 lt ld1 n1 s0 hlt hne hld habs
  rw [hstore]
  have hcount0 : s0.countP
      (fun e => e.id == log_hash lt (ld1.player_name.getD "") (ld1.message.getD ""))
      = 0 := by
    rw [List.countP_eq_zero]
    intro a ha
    have := List.any_eq_false.mp habs a ha
    simpa using this
  have hpres : (s0 ++ [(⟨log_hash lt (ld1.player_name.getD "") (ld1.message.getD ""), lt,
      ld1, b1.timestamp, false, n1⟩ : LogEntry)]).any
      (fun e => e.id == log_hash lt (ld1.player_name.getD "") (ld1.message.getD ""))
      = true := by
    simp [List.any_append]
  have hseq := runLogSeq_all_duplicate API_KEY hAK lt
    (ld1.player_name.getD "") (ld1.message.getD "") hne calls _ hpres hcalls
  refine ⟨rfl, rfl, ?_, hseq.1, ?_⟩
  · rw [List.countP_append, hcount0]
    simp
  · intro r hr
    have := hseq.2 r hr
    subst this
    exact ⟨rfl, rfl, rfl⟩

/-- Witness for C2: the same `(log_type, player_name, message)` submitted
three times with varying `username`, `timestamp` and credential location:
one entry stored, both later calls report the duplicate success. -/
theorem ingestLog_dedup_witness :
    (log_event "k" (some "k")
        ⟨none, some "t", some ⟨some "p", some "m", some "u1"⟩, some (JVal.jint 1)⟩
        true 1 none []).1 = LEResult.storedOk ∧
    (log_event "k" (some "k")
        ⟨none, some "t", some ⟨some "p", some "m", some "u1"⟩, some (JVal.jint 1)⟩
        true 1 none []).2
      = [] ++ [⟨log_hash "t" "p" "m", "t", ⟨some "p", some "m", some "u1"⟩,
          some (JVal.jint 1), false, 1⟩] ∧
    ((log_event "k" (some "k")
        ⟨none, some "t", some ⟨some "p", some "m", some "u1"⟩, some (JVal.jint 1)⟩
        true 1 none []).2.countP (fun e => e.id == log_hash "t" "p" "m")) = 1 ∧
    (runLogSeq "k"
        [(some "k", ⟨some "other", some "t", some ⟨some "p", some "m", some "u2"⟩,
            some (JVal.jint 2)⟩, 2),
         (some "k", ⟨none, some "t", some ⟨some "p", some "m", none⟩, none⟩, 3)]
        (log_event "k" (some "k")
          ⟨none, some "t", some ⟨some "p", some "m", some "u1"⟩, some (JVal.jint 1)⟩
          true 1 none []).2).2
      = (log_event "k" (some "k")
          ⟨none, some "t", some ⟨some "p", some "m", some "u1"⟩, some (JVal.jint 1)⟩
          true 1 none []).2 ∧
    ∀ r ∈ (runLogSeq "k"
        [(some "k", ⟨some "other", some "t", some ⟨some "p", some "m", some "u2"⟩,
            some (JVal.jint 2)⟩, 2),
         (some "k", ⟨none, some "t", some ⟨some "p", some "m", none⟩, none⟩, 3)]
        (log_event "k" (some "k")
          ⟨none, some "t", some ⟨some "p", some "m", some "u1"⟩, some (JVal.jint 1)⟩
          true 1 none []).2).1,
      r = LEResult.duplicateIgnored ∧ leSuccess r = true ∧ leCode r = 200 :=
  ingestLog_dedup "k" (by decide)
    ⟨none, some "t", some ⟨some "p", some "m", some "u1"⟩, some (JVal.jint 1)⟩
    "t" ⟨some "p", some "m", some "u1"⟩ 1 []
    [(some "k", ⟨some "other", some "t", some ⟨some "p", some "m", some "u2"⟩,
        some (JVal.jint 2)⟩, 2),
     (some "k", ⟨none, some "t", some ⟨some "p", some "m", none⟩, none⟩, 3)]
    rfl (by decide) rfl (by decide)
    (by
      intro c hc
      rcases List.mem_cons.mp hc with h | h
      · subst h
        exact ⟨rfl, rfl, ⟨some "p", some "m", some "u2"⟩, rfl, rfl, rfl⟩
      · rcases List.mem_cons.mp h with h2 | h2
        · subst h2
          exact ⟨rfl, rfl, ⟨some "p", some "m", none⟩, rfl, rfl, rfl⟩
        · cases h2)

/-! ## The fingerprint is not injective in `message` alone -/

theorem string_append_left_cancel (a b c : String) (h : a ++ b = a ++ c) : b = c := by
  have hd : a.data ++ b.data = a.data ++ c.data := by
    have h2 := congrArg String.data h
    simpa [String.data_append] using h2
  exact String.ext (List.append_cancel_left hd)

theorem log_hash_inj_message (lt p m1 m2 : String)
    (h : log_hash lt p m1 = log_hash lt p m2) : m1 = m2 := by
  unfold log_hash fingerprintInput at h
  exact string_append_left_cancel (lt ++ "_" ++ p ++ "_") m1 m2 h

/-- C5 counterexample: the fingerprint is the md5 of the underscore-join
`f"{log_type}_{player_name}_{message}"`, which is not injective in the field
boundaries: submissions `("t", "p", "x_y")` and `("t", "p_x", "y")` have
different messages but the same join `"t_p_x_y"`, hence the same digest; the
second submission is reported as a duplicate and is NOT stored as a distinct
entry, refuting the claim for these values of `log_type` and `player_name`. -/
theorem ingestLog_distinct_messages_counterexample :
    (some "x_y" : Option String) ≠ some "y" ∧
    log_hash "t" "p" "x_y" = log_hash "t" "p_x" "y" ∧
    (log_event "k" (some "k") ⟨none, some "t", some ⟨some "p_x", some "y", none⟩, none⟩
        true 1 none
        (log_event "k" (some "k") ⟨none, some "t", some ⟨some "p", some "x_y", none⟩, none⟩
          true 0 none []).2).1
      = LEResult.duplicateIgnored ∧
    (log_event "k" (some "k") ⟨none, some "t", some ⟨some "p_x", some "y", none⟩, none⟩
        true 1 none
        (log_event "k" (some "k") ⟨none, some "t", some ⟨some "p", some "x_y", none⟩, none⟩
          true 0 none []).2).2.length = 1 := by
  refine ⟨by decide, rfl, ?_, ?_⟩ <;> decide

/-- C5 (amended): for two submissions with the SAME `log_type` and
`player_name` but different messages, the fingerprints are distinct and both
are stored as distinct entries.  (As stated — for ALL values of `log_type`
and `player_name` across the two submissions — the claim fails, because the
underscore-join is not injective across field boundaries.) -/
theorem ingestLog_distinct_messages (API_KEY : String) (hAK : API_KEY ≠ "")
    (lt p m1 m2 : String) (hne : lt ≠ "") (hm : m1 ≠ m2)
    (b1 b2 : LEBody) (ld1 ld2 : LogData) (n1 n2 : Nat) (s0 : LogStore)
    (hb1t : b1.log_type = some lt) (hb1d : b1.log_data = some ld1)
    (hb2t : b2.log_type = some lt) (hb2d : b2.log_data = some ld2)
    (hp1 : ld1.player_name.getD "" = p) (hp2 : ld2.player_name.getD "" = p)
    (hm1 : ld1.message.getD "" = m1) (hm2 : ld2.message.getD "" = m2)
    (h1 : s0.any (fun e => e.id == log_hash lt p m1) = false)
    (h2 : s0.any (fun e => e.id == log_hash lt p m2) = false) :
    log_hash lt p m1 ≠ log_hash lt p m2 ∧
    (log_event API_KEY (some API_KEY) b1 true n1 none s0).1 = LEResult.storedOk ∧
    (log_event API_KEY (some API_KEY) b2 true n2 none
        (log_event API_KEY (some API_KEY) b1 true n1 none s0).2).1
      = LEResult.storedOk ∧
    (log_event API_KEY (some API_KEY) b2 true n2 none
        (log_event API_KEY (some API_KEY) b1 true n1 none s0).2).2
      = s0 ++ [⟨log_hash lt p m1, lt, ld1, b1.timestamp, false, n1⟩,
               ⟨log_hash lt p m2, lt, ld2, b2.timestamp, false, n2⟩] := by
  have hfp : log_hash lt p m1 ≠ log_hash lt p m2 := by
    intro h
    exact hm (log_hash_inj_message lt p m1 m2 h)
  have hs1 := log_event_stores API_KEY hAK b1 lt ld1 n1 s0 hb1t hne hb1d
    (by rw [hp1, hm1]; exact h1)
  rw [hp1, hm1] at hs1
  have habs2 : ((log_event API_KEY (some API_KEY) b1 true n1 none s0).2).any
      (fun e => e.id == log_hash lt p m2) = false := by
    rw [hs1]
    simp only [List.any_append, List.any_cons, List.any_nil, h2, Bool.false_or,
      Bool.or_false]
    exact beq_eq_false_iff_ne.mpr hfp
  have hs2 := log_event_stores API_KEY hAK b2 lt ld2 n2 _ hb2t hne hb2d
    (by rw [hp2, hm2]; exact habs2)
  rw [hp2, hm2] at hs2
  refine ⟨hfp, by rw [hs1], by rw [hs2], ?_⟩
  rw [hs2, hs1]
  simp

/-- Witness for the amended C5: messages `"a"` and `"b"` under the same
`log_type`/`player_name` produce two distinct stored entries. -/
theorem ingestLog_distinct_messages_witness :
    log_hash "t" "p" "a" ≠ log_hash "t" "p" "b" ∧
    (log_event "k" (some "k") ⟨none, some "t", some ⟨some "p", some "a", none⟩, none⟩
        true 1 none []).1 = LEResult.storedOk ∧
    (log_event "k" (some "k") ⟨none, some "t", some ⟨some "p", some "b", none⟩, none⟩
        true 2 none
        (log_event "k" (some "k") ⟨none, some "t", some ⟨some "p", some "a", none⟩, none⟩
          true 1 none []).2).1
      = LEResult.storedOk ∧
    (log_event "k" (some "k") ⟨none, some "t", some ⟨some "p", some "b", none⟩, none⟩
        true 2 none
        (log_event "k" (some "k") ⟨none, some "t", some ⟨some "p", some "a", none⟩, none⟩
          true 1 none []).2).2
      = [] ++ [⟨log_hash "t" "p" "a", "t", ⟨some "p", some "a", none⟩, none, false, 1⟩,
               ⟨log_hash "t" "p" "b", "t", ⟨some "p", some "b", none⟩, none, false, 2⟩] :=
  ingestLog_distinct_messages "k" (by decide) "t" "p" "a" "b" (by decide) (by decide)
    ⟨none, some "t", some ⟨some "p", some "a", none⟩, none⟩
    ⟨none, some "t", some ⟨some "p", some "b", none⟩, none⟩
    ⟨some "p", some "a", none⟩ ⟨some "p", some "b", none⟩ 1 2 []
    rfl rfl rfl rfl rfl rfl rfl rfl (by decide) (by decide)

/-! ## Lemmas about the license collection -/

theorem license_gate_pass (API_KEY : String) (hAK : API_KEY ≠ "") :
    (API_KEY == "" || API_KEY != API_KEY) = false := by
  simp [hAK]

theorem findLicense_append_of_none (s : LicStore) (x : LicenseRecord)
    (h : findLicense s x.id = none) : findLicense (s ++ [x]) x.id = some x := by
  unfold findLicense at h ⊢
  rw [List.find?_append, h]
  simp [List.find?_cons]

theorem findLicense_eq_none_iff (s : LicStore) (uid : Int) :
    findLicense s uid = none ↔ ∀ r ∈ s, r.id ≠ uid := by
  unfold findLicense
  rw [List.find?_eq_none]
  constructor
  · intro h r hr
    have := h r hr
    simpa using this
  · intro h r hr
    simpa using h r hr

theorem findLicense_cons (r : LicenseRecord) (rest : LicStore) (uid : Int) :
    findLicense (r :: rest) uid
      = if r.id == uid then some r else findLicense rest uid := by
  unfold findLicense
  cases h : (r.id == uid) <;> simp [List.find?, h]

theorem deleteLicense_sublist (s : LicStore) (uid : Int) :
    List.Sublist (deleteLicense s uid) s := by
  induction s with
  | nil => simp [deleteLicense]
  | cons r rest ih =>
      by_cases h : (r.id == uid) = true
      · simp only [deleteLicense, h, if_true]
        exact List.sublist_cons_self r rest
      · have hb2 : (r.id == uid) = false := by simpa using h
        simp only [deleteLicense, hb2, Bool.false_eq_true, if_false]
        exact List.Sublist.cons₂ r ih

theorem findLicense_deleteLicense_self (s : LicStore) (uid : Int)
    (hs : licUnique s) : findLicense (deleteLicense s uid) uid = none := by
  induction s with
  | nil => simp [deleteLicense, findLicense]
  | cons r rest ih =>
      rcases List.pairwise_cons.mp hs with ⟨hr, hrest⟩
      by_cases h : (r.id == uid) = true
      · simp only [deleteLicense, h, if_true]
        rw [findLicense_eq_none_iff]
        intro x hx
        have hne : r.id ≠ x.id := hr x hx
        intro hxid
        exact hne (by rw [hxid]; exact beq_iff_eq.mp h)
      · have hb2 : (r.id == uid) = false := by simpa using h
        simp only [deleteLicense, hb2, Bool.false_eq_true, if_false]
        rw [findLicense_cons, hb2]
        simp only [Bool.false_eq_true, if_false]
        exact ih hrest

theorem licUnique_append (s : LicStore) (x : LicenseRecord)
    (hs : licUnique s) (h : findLicense s x.id = none) : licUnique (s ++ [x]) := by
  rw [licUnique, List.pairwise_append]
  refine ⟨hs, List.pairwise_singleton _ _, ?_⟩
  intro a ha b hb
  rw [List.mem_singleton] at hb
  rw [hb]
  exact (findLicense_eq_none_iff s x.id).mp h a ha

/-- Every run of the `license` handler either leaves the collection
unchanged, inserts one record for a user with no existing record
(`issued_at` set to the server time `now`), or deletes the record of a user
that has one. -/
theorem license_store_shape (API_KEY : String) (req : LicReq) (dbInit : Bool)
    (now : String) (fail : Option String) (s : LicStore) :
    (license API_KEY req dbInit now fail s).2 = s ∨
    (∃ uid ib, findLicense s uid = none ∧
      (license API_KEY req dbInit now fail s).2 = s ++ [⟨uid, ib, now⟩]) ∨
    (∃ uid r, findLicense s uid = some r ∧
      (license API_KEY req dbInit now fail s).2 = deleteLicense s uid) := by
  unfold license
  repeat' split
  all_goals first
    | exact Or.inl rfl
    | exact Or.inr (Or.inl ⟨_, _, by assumption, rfl⟩)
    | exact Or.inr (Or.inr ⟨_, _, by assumption, rfl⟩)

theorem licUnique_license (API_KEY : String) (req : LicReq) (dbInit : Bool)
    (now : String) (fail : Option String) (s : LicStore) (hs : licUnique s) :
    licUnique (license API_KEY req dbInit now fail s).2 := by
  rcases license_store_shape API_KEY req dbInit now fail s with
    h | ⟨uid, ib, habs, h⟩ | ⟨uid, r, hfound, h⟩
  · rwa [h]
  · rw [h]
    exact licUnique_append s ⟨uid, ib, now⟩ hs habs
  · rw [h]
    exact hs.sublist (deleteLicense_sublist s uid)

/-- C6: at every store state reachable through the `license` handler, each
user identifier has at most one `LicenseRecord`, and no run ever updates a
record in place: the store is either unchanged, extended by one record for a
user with none (issue on absent), or shrunk by deleting the record of a user
that has one (revoke on present). -/
theorem license_registry_invariant (s : LicStore) (hreach : LicReachable s) :
    licUnique s ∧
    ∀ API_KEY req dbInit now fail,
      (license API_KEY req dbInit now fail s).2 = s ∨
      (∃ uid ib, findLicense s uid = none ∧
        (license API_KEY req dbInit now fail s).2 = s ++ [⟨uid, ib, now⟩]) ∨
      (∃ uid r, findLicense s uid = some r ∧
        (license API_KEY req dbInit now fail s).2 = deleteLicense s uid) := by
  refine ⟨?_, fun A req d n f => license_store_shape A req d n f s⟩
  induction hreach with
  | init => exact List.Pairwise.nil
  | step A req d n f h ih => exact licUnique_license A req d n f _ ih

/-- Witness for C6 at the initial (empty, reachable) store. -/
theorem license_registry_invariant_witness :
    licUnique [] ∧
    ∀ API_KEY req dbInit now fail,
      (license API_KEY req dbInit now fail []).2 = [] ∨
      (∃ uid ib, findLicense [] uid = none ∧
        (license API_KEY req dbInit now fail []).2 = [] ++ [⟨uid, ib, now⟩]) ∨
      (∃ uid r, findLicense [] uid = some r ∧
        (license API_KEY req dbInit now fail []).2 = deleteLicense [] uid) :=
  license_registry_invariant [] LicReachable.init

/-- C3: the per-user license state machine.  With a valid header credential
and an available store: issue on a user with no license succeeds, recording
`issued_by` and the server-assigned `issued_at`; a subsequent issue for the
same user fails with 409 and leaves the record unchanged; revoke on a
licensed user deletes the record; revoke on an absent user fails with 404;
query succeeds in both states (HTTP 200), with `has_license: true` plus
`issued_by`/`issued_at` when licensed and `has_license: false` when absent —
never an error for a missing record. -/
theorem license_state_machine (API_KEY : String) (hAK : API_KEY ≠ "")
    (s : LicStore) (hs : licUnique s) (now : String) :
    (∀ uid ib, findLicense s uid = none →
      license API_KEY ⟨.post, some API_KEY, none, some ⟨some (.jint uid), some (.jint ib)⟩⟩
          true now none s
        = (.issued, s ++ [⟨uid, ib, now⟩]) ∧
      findLicense (s ++ [⟨uid, ib, now⟩]) uid = some ⟨uid, ib, now⟩) ∧
    (∀ uid ib r, findLicense s uid = some r →
      license API_KEY ⟨.post, some API_KEY, none, some ⟨some (.jint uid), some (.jint ib)⟩⟩
          true now none s
        = (.alreadyLicensed, s) ∧ licCode .alreadyLicensed = 409) ∧
    (∀ su uid r, pyParseInt su = some uid → su ≠ "" → findLicense s uid = some r →
      license API_KEY ⟨.delete, some API_KEY, some su, none⟩ true now none s
        = (.revoked, deleteLicense s uid) ∧
      findLicense (deleteLicense s uid) uid = none) ∧
    (∀ su uid, pyParseInt su = some uid → su ≠ "" → findLicense s uid = none →
      license API_KEY ⟨.delete, some API_KEY, some su, none⟩ true now none s
        = (.notLicensed, s) ∧ licCode .notLicensed = 404) ∧
    (∀ su uid, pyParseInt su = some uid → su ≠ "" →
      (∀ r, findLicense s uid = some r →
        license API_KEY ⟨.get, some API_KEY, some su, none⟩ true now none s
          = (.queryFound r.issued_by r.issued_at, s) ∧
        licHasLicense (.queryFound r.issued_by r.issued_at) = some true) ∧
      (findLicense s uid = none →
        license API_KEY ⟨.get, some API_KEY, some su, none⟩ true now none s
          = (.queryNotFound, s) ∧ licHasLicense .queryNotFound = some false) ∧
      licCode (license API_KEY ⟨.get, some API_KEY, some su, none⟩ true now none s).1
        = 200) := by
  have hgate := license_gate_pass API_KEY hAK
  refine ⟨?_, ?_, ?_, ?_, ?_⟩
  · intro uid ib habs
    refine ⟨?_, findLicense_append_of_none s ⟨uid, ib, now⟩ habs⟩
    simp only [license, hgate, Bool.false_eq_true, if_false, if_true, pyInt, habs]
  · intro uid ib r hfound
    refine ⟨?_, rfl⟩
    simp only [license, hgate, Bool.false_eq_true, if_false, if_true, pyInt, hfound]
  · intro su uid r hsu hne hfound
    have hsne : (su == "") = false := by simpa using hne
    refine ⟨?_, findLicense_deleteLicense_self s uid hs⟩
    simp only [license, hgate, Bool.false_eq_true, if_false, if_true, hsne, hsu, hfound]
  · intro su uid hsu hne hfound
    have hsne : (su == "") = false := by simpa using hne
    refine ⟨?_, rfl⟩
    simp only [license, hgate, Bool.false_eq_true, if_false, if_true, hsne, hsu, hfound]
  · intro su uid hsu hne
    have hsne : (su == "") = false := by simpa using hne
    refine ⟨?_, ?_, ?_⟩
    · intro r hfound
      refine ⟨?_, rfl⟩
      simp only [license, hgate, Bool.false_eq_true, if_false, if_true, hsne, hsu, hfound]
    · intro hfound
      refine ⟨?_, rfl⟩
      simp only [license, hgate, Bool.false_eq_true, if_false, if_true, hsne, hsu, hfound]
    · rcases hfl : findLicense s uid with _ | r
      · have h2 : license API_KEY ⟨.get, some API_KEY, some su, none⟩ true now none s
            = (.queryNotFound, s) := by
          simp only [license, hgate, Bool.false_eq_true, if_false, if_true, hsne, hsu, hfl]
        rw [h2]
        rfl
      · have h2 : license API_KEY ⟨.get, some API_KEY, some su, none⟩ true now none s
            = (.queryFound r.issued_by r.issued_at, s) := by
          simp only [license, hgate, Bool.false_eq_true, if_false, if_true, hsne, hsu, hfl]
        rw [h2]
        rfl

/-- Witness for C3: with user 7 licensed by 1 at time "T", a second issue
returns 409 and leaves the record unchanged, and a revoke deletes it. -/
theorem license_state_machine_witness :
    (license "k" ⟨.post, some "k", none, some ⟨some (.jint 7), some (.jint 2)⟩⟩
        true "U" none [⟨7, 1, "T"⟩]
      = (.alreadyLicensed, [⟨7, 1, "T"⟩]) ∧ licCode .alreadyLicensed = 409) ∧
    (license "k" ⟨.delete, some "k", some "7", none⟩ true "U" none [⟨7, 1, "T"⟩]
      = (.revoked, deleteLicense [⟨7, 1, "T"⟩] 7) ∧
      findLicense (deleteLicense [⟨7, 1, "T"⟩] 7) 7 = none) := by
  have h := license_state_machine "k" (by decide) [⟨7, 1, "T"⟩] (by simp [licUnique]) "U"
  exact ⟨h.2.1 7 2 ⟨7, 1, "T"⟩ (by decide),
         h.2.2.1 "7" 7 ⟨7, 1, "T"⟩ (by decide) (by decide) (by decide)⟩

/-! ## The credential gate, per endpoint -/

theorem ua_not_unauthorized (API_KEY : String) (hk : Option String) (d : UABody)
    (u : JVal) (m : Int) (ci : Bool) (fl : Option String) (s : ActivityStore)
    (hu : d.user_id = some u) (hm : d.activity_minutes = some m)
    (hauth : d.api_key = some API_KEY ∨ hk = some API_KEY) :
    (update_activity API_KEY hk (some d) ci fl s).1 ≠ UAResult.unauthorized := by
  obtain ⟨du, dm, dk⟩ := d
  simp only at hu hm hauth
  subst hu; subst hm
  simp only [update_activity]
  rw [if_pos hauth]
  cases ci <;> cases fl <;> simp

theorem ua_unauthorized (API_KEY : String) (hk : Option String) (d : UABody)
    (u : JVal) (m : Int) (ci : Bool) (fl : Option String) (s : ActivityStore)
    (hu : d.user_id = some u) (hm : d.activity_minutes = some m)
    (h1 : d.api_key ≠ some API_KEY) (h2 : hk ≠ some API_KEY) :
    update_activity API_KEY hk (some d) ci fl s = (UAResult.unauthorized, s) := by
  obtain ⟨du, dm, dk⟩ := d
  simp only at hu hm h1
  subst hu; subst hm
  have hno : ¬ (dk = some API_KEY ∨ hk = some API_KEY) := by
    rintro (h | h)
    · exact h1 h
    · exact h2 h
  simp only [update_activity]
  rw [if_neg hno]

theorem log_event_not_unauthorized (API_KEY : String) (hk : Option String)
    (b : LEBody) (dbi : Bool) (now : Nat) (fl : Option String) (s : LogStore)
    (hAK : API_KEY ≠ "") (hpass : pyOr hk b.api_key = some API_KEY) :
    (log_event API_KEY hk b dbi now fl s).1 ≠ LEResult.unauthorized := by
  have hb : (API_KEY == "" || API_KEY != API_KEY) = false := by simp [hAK]
  unfold log_event
  rw [hpass]
  simp only [hb, Bool.false_eq_true, if_false]
  repeat' split
  all_goals exact fun h => LEResult.noConfusion h

theorem log_event_unauthorized (API_KEY : String) (hk : Option String)
    (b : LEBody) (dbi : Bool) (now : Nat) (fl : Option String) (s : LogStore)
    (hbad : ∀ x, pyOr hk b.api_key = some x → x = "" ∨ x ≠ API_KEY) :
    log_event API_KEY hk b dbi now fl s = (LEResult.unauthorized, s) := by
  unfold log_event
  cases hpy : pyOr hk b.api_key with
  | none => rfl
  | some k =>
      have hcond : (k == "" || k != API_KEY) = true := by
        rcases hbad k hpy with h | h
        · subst h; simp
        · simp [h]
      simp only [hcond, if_true]

theorem license_not_unauthorized (API_KEY : String) (req : LicReq) (dbi : Bool)
    (now : String) (fl : Option String) (s : LicStore)
    (hAK : API_KEY ≠ "") (hhdr : req.headerKey = some API_KEY) :
    (license API_KEY req dbi now fl s).1 ≠ LicResult.unauthorized := by
  have hb := license_gate_pass API_KEY hAK
  unfold license
  rw [hhdr]
  simp only [hb, Bool.false_eq_true, if_false]
  repeat' split
  all_goals exact fun h => LicResult.noConfusion h

theorem license_unauthorized (API_KEY : String) (req : LicReq) (dbi : Bool)
    (now : String) (fl : Option String) (s : LicStore)
    (hhdr : req.headerKey ≠ some API_KEY) :
    license API_KEY req dbi now fl s = (LicResult.unauthorized, s) := by
  unfold license
  cases hh : req.headerKey with
  | none => rfl
  | some k =>
      have hkne : k ≠ API_KEY := by
        intro h
        exact hhdr (by rw [hh, h])
      have hcond : (k == "" || k != API_KEY) = true := by simp [hkne]
      simp only [hcond, if_true]

/-- C9: in `update_activity` body validation precedes the credential check —
a JSON body that is absent or missing `user_id`/`activity_minutes` receives
400 whatever credential the request carries — whereas `log_event` checks the
credential first, so a malformed body with a bad credential receives 401. -/
theorem validation_order_differs (API_KEY : String) :
    (∀ hk d ci fl s,
      (d = none ∨ ∃ b, d = some b ∧ (b.user_id = none ∨ b.activity_minutes = none)) →
      update_activity API_KEY hk d ci fl s = (UAResult.invalidData, s) ∧
      uaCode UAResult.invalidData = 400) ∧
    (∀ hk b dbi now fl s,
      (∀ x, pyOr hk b.api_key = some x → x = "" ∨ x ≠ API_KEY) →
      log_event API_KEY hk b dbi now fl s = (LEResult.unauthorized, s) ∧
      leCode LEResult.unauthorized = 401) := by
  constructor
  · rintro hk d ci fl s (rfl | ⟨b, rfl, hmiss⟩)
    · exact ⟨rfl, rfl⟩
    · obtain ⟨bu, bm, bk⟩ := b
      refine ⟨?_, rfl⟩
      simp only at hmiss
      rcases hmiss with rfl | rfl
      · simp [update_activity]
      · cases bu <;> simp [update_activity]
  · intro hk b dbi now fl s hbad
    exact ⟨log_event_unauthorized API_KEY hk b dbi now fl s hbad, rfl⟩

/-- Witness for C9: a body missing both fields, sent with a wrong header
credential and a correct body credential: `update_activity` answers 400
(validation first), `log_event` answers 401 (credential first, and the wrong
non-empty header shadows the correct body key). -/
theorem validation_order_differs_witness :
    (update_activity "k" (some "bad") (some ⟨none, none, some "k"⟩) true none []
      = (UAResult.invalidData, []) ∧ uaCode UAResult.invalidData = 400) ∧
    (log_event "k" (some "bad") ⟨some "k", none, none, none⟩ true 0 none []
      = (LEResult.unauthorized, []) ∧ leCode LEResult.unauthorized = 401) :=
  ⟨(validation_order_differs "k").1 (some "bad") (some ⟨none, none, some "k"⟩) true none []
      (Or.inr ⟨⟨none, none, some "k"⟩, rfl, Or.inl rfl⟩),
   (validation_order_differs "k").2 (some "bad") ⟨some "k", none, none, none⟩ true 0 none []
      (fun x hx => by
        have hx2 : x = "bad" := by
          simpa [pyOr, truthy] using hx.symm
        subst hx2
        right
        decide)⟩

/-- C4 counterexample: `log_event` consults the header first (`or` in
Python): a wrong non-empty `X-API-Key` with a CORRECT body `api_key` is
rejected 401, refuting "a wrong header value with a correct body value is
still accepted" for that endpoint (and the license endpoints never read a
body credential at all). -/
theorem credential_gate_counterexample :
    (log_event "k" (some "wrong") ⟨some "k", some "t", some ⟨some "p", some "m", none⟩, none⟩
        true 0 none []).1 = LEResult.unauthorized ∧
    leCode LEResult.unauthorized = 401 := by decide

/-- C4 (amended): `update_activity` accepts the configured secret in either
the header or the body and rejects 401 when neither matches; `log_event`
accepts the header when it equals the secret, consults the body key only
when the header is absent (or empty), and rejects 401 whenever the selected
value mismatches — so a wrong non-empty header is rejected even with a
correct body key; the license operations accept only the header. -/
theorem credential_gate (API_KEY : String) (hAK : API_KEY ≠ "") :
    (∀ hk d u m ci fl s, d.user_id = some u → d.activity_minutes = some m →
      ((d.api_key = some API_KEY ∨ hk = some API_KEY) →
        (update_activity API_KEY hk (some d) ci fl s).1 ≠ UAResult.unauthorized) ∧
      (d.api_key ≠ some API_KEY → hk ≠ some API_KEY →
        update_activity API_KEY hk (some d) ci fl s = (UAResult.unauthorized, s) ∧
        uaCode UAResult.unauthorized = 401)) ∧
    (∀ b dbi now fl s,
      ((log_event API_KEY (some API_KEY) b dbi now fl s).1 ≠ LEResult.unauthorized) ∧
      (b.api_key = some API_KEY →
        (log_event API_KEY none b dbi now fl s).1 ≠ LEResult.unauthorized) ∧
      (∀ h, h ≠ "" → h ≠ API_KEY →
        log_event API_KEY (some h) b dbi now fl s = (LEResult.unauthorized, s) ∧
        leCode LEResult.unauthorized = 401)) ∧
    (∀ req dbi now fl s,
      (req.headerKey = some API_KEY →
        (license API_KEY req dbi now fl s).1 ≠ LicResult.unauthorized) ∧
      (req.headerKey ≠ some API_KEY →
        license API_KEY req dbi now fl s = (LicResult.unauthorized, s) ∧
        licCode LicResult.unauthorized = 401)) := by
  refine ⟨?_, ?_, ?_⟩
  · intro hk d u m ci fl s hu hm
    exact ⟨ua_not_unauthorized API_KEY hk d u m ci fl s hu hm,
      fun h1 h2 => ⟨ua_unauthorized API_KEY hk d u m ci fl s hu hm h1 h2, rfl⟩⟩
  · intro b dbi now fl s
    refine ⟨?_, ?_, ?_⟩
    · exact log_event_not_unauthorized API_KEY (some API_KEY) b dbi now fl s hAK
        (pyOr_header API_KEY hAK b.api_key)
    · intro hbk
      apply log_event_not_unauthorized API_KEY none b dbi now fl s hAK
      simp [pyOr, truthy, hbk]
    · intro h hne hnk
      refine ⟨?_, rfl⟩
      apply log_event_unauthorized
      intro x hx
      have hsel : pyOr (some h) b.api_key = some h := by simp [pyOr, truthy, hne]
      rw [hsel] at hx
      right
      rw [← Option.some_inj.mp hx]
      exact hnk
  · intro req dbi now fl s
    exact ⟨fun hh => license_not_unauthorized API_KEY req dbi now fl s hAK hh,
      fun hh => ⟨license_unauthorized API_KEY req dbi now fl s hh, rfl⟩⟩

/-- Witness for the amended C4: a correct body key with a wrong header is
accepted by `update_activity` but not needed by `log_event` (wrong non-empty
header rejected); the license endpoint rejects a request without the header.
-/
theorem credential_gate_witness :
    ((update_activity "k" (some "bad")
        (some ⟨some (JVal.jint 1), some 2, some "k"⟩) true none []).1
      ≠ UAResult.unauthorized) ∧
    (log_event "k" (some "bad") ⟨some "k", some "t", some ⟨some "p", some "m", none⟩, none⟩
        true 0 none [] = (LEResult.unauthorized, []) ∧
      leCode LEResult.unauthorized = 401) ∧
    (license "k" ⟨.get, none, some "7", none⟩ true "T" none []
      = (LicResult.unauthorized, []) ∧ licCode LicResult.unauthorized = 401) :=
  ⟨(((credential_gate "k" (by decide)).1 (some "bad") ⟨some (JVal.jint 1), some 2, some "k"⟩
      (JVal.jint 1) 2 true none [] rfl rfl).1 (Or.inl rfl)),
   ((credential_gate "k" (by decide)).2.1
      ⟨some "k", some "t", some ⟨some "p", some "m", none⟩, none⟩ true 0 none []).2.2
      "bad" (by decide) (by decide),
   ((credential_gate "k" (by decide)).2.2 ⟨.get, none, some "7", none⟩ true "T" none []).2
      (by decide)⟩

/-! ## Storage unavailability and storage exceptions -/

/-- C7 counterexample: `log_event` never checks whether the store handle is
initialised — with `db = None` it answers the generic 500, not 503; and a
non-duplicate storage exception in the license handler is answered with the
generic message `'Internal server error'`, not the underlying `str(e)`
(here `"boom"`). -/
theorem storage_errors_counterexample :
    (log_event "k" (some "k") ⟨none, some "t", some ⟨some "p", some "m", none⟩, none⟩
        false 0 none [] = (LEResult.internalError, []) ∧
      leCode LEResult.internalError = 500 ∧ leCode LEResult.internalError ≠ 503) ∧
    (license "k" ⟨.get, some "k", some "7", none⟩ true "T" (some "boom") []
        = (LicResult.internalError, []) ∧
      licMessage LicResult.internalError = some "Internal server error" ∧
      licMessage LicResult.internalError ≠ some "boom") := by decide

/-- C7 (amended): `update_activity` answers 503 when its collection handle is
uninitialised and 500 with the underlying exception message on any other
store failure; the license handler checks the handle (503) but answers any
other store exception with a generic 500 that does not carry the underlying
message; `log_event` performs no initialisation check — an uninitialised
store and any non-duplicate store exception both produce the generic 500. -/
theorem storage_errors (API_KEY : String) (hAK : API_KEY ≠ "") :
    (∀ hk d u m s msg, d.user_id = some u → d.activity_minutes = some m →
      (d.api_key = some API_KEY ∨ hk = some API_KEY) →
      update_activity API_KEY hk (some d) false none s = (UAResult.dbUnavailable, s) ∧
      uaCode UAResult.dbUnavailable = 503 ∧
      update_activity API_KEY hk (some d) true (some msg) s
        = (UAResult.storageError msg, s) ∧
      uaCode (UAResult.storageError msg) = 500 ∧
      uaMessage (UAResult.storageError msg) = some msg) ∧
    (∀ req now fl s, req.headerKey = some API_KEY →
      license API_KEY req false now fl s = (LicResult.dbUnavailable, s) ∧
      licCode LicResult.dbUnavailable = 503) ∧
    (∀ su uid now msg s, pyParseInt su = some uid → su ≠ "" →
      license API_KEY ⟨.get, some API_KEY, some su, none⟩ true now (some msg) s
        = (LicResult.internalError, s) ∧
      licCode LicResult.internalError = 500 ∧
      licMessage LicResult.internalError = some "Internal server error") ∧
    (∀ b lt ld now s, b.log_type = some lt → lt ≠ "" → b.log_data = some ld →
      log_event API_KEY (some API_KEY) b false now none s = (LEResult.internalError, s) ∧
      leCode LEResult.internalError = 500 ∧
      leErrorMsg LEResult.internalError = some "Internal server error") ∧
    (∀ b lt ld now msg s, b.log_type = some lt → lt ≠ "" → b.log_data = some ld →
      isDupKeyMsg msg = false →
      log_event API_KEY (some API_KEY) b true now (some msg) s
        = (LEResult.internalError, s)) := by
  have hgate := license_gate_pass API_KEY hAK
  refine ⟨?_, ?_, ?_, ?_, ?_⟩
  · intro hk d u m s msg hu hm hauth
    obtain ⟨du, dm, dk⟩ := d
    simp only at hu hm hauth
    subst hu; subst hm
    refine ⟨?_, rfl, ?_, rfl, rfl⟩ <;>
      (simp only [update_activity]; rw [if_pos hauth]; simp)
  · intro req now fl s hhdr
    refine ⟨?_, rfl⟩
    unfold license
    rw [hhdr]
    simp only [hgate, Bool.false_eq_true, if_false]
  · intro su uid now msg s hsu hne
    have hsne : (su == "") = false := by simpa using hne
    refine ⟨?_, rfl, rfl⟩
    simp only [license, hgate, Bool.false_eq_true, if_false, if_true, hsne, hsu]
  · intro b lt ld now s hlt hne hld
    have hne2 : (lt == "") = false := by simp [hne]
    refine ⟨?_, rfl, rfl⟩
    simp only [log_event, pyOr_header API_KEY hAK, hgate, hlt, hld, hne2,
      Bool.false_eq_true, if_false]
  · intro b lt ld now msg s hlt hne hld hmsg
    have hne2 : (lt == "") = false := by simp [hne]
    simp only [log_event, pyOr_header API_KEY hAK, hgate, hlt, hld, hne2,
      Bool.false_eq_true, if_false, if_true, logInsertOne, hmsg]

/-- Witness for the amended C7 at concrete requests and the failure
message `"boom"`. -/
theorem storage_errors_witness :
    (update_activity "k" (some "k") (some ⟨some (JVal.jint 1), some 2, none⟩) false none []
      = (UAResult.dbUnavailable, []) ∧
      uaCode UAResult.dbUnavailable = 503 ∧
      update_activity "k" (some "k") (some ⟨some (JVal.jint 1), some 2, none⟩) true
        (some "boom") [] = (UAResult.storageError "boom", []) ∧
      uaCode (UAResult.storageError "boom") = 500 ∧
      uaMessage (UAResult.storageError "boom") = some "boom") ∧
    (license "k" ⟨.get, some "k", some "7", none⟩ false "T" none []
      = (LicResult.dbUnavailable, []) ∧ licCode LicResult.dbUnavailable = 503) ∧
    (log_event "k" (some "k") ⟨none, some "t", some ⟨some "p", some "m", none⟩, none⟩
        true 0 (some "boom") [] = (LEResult.internalError, [])) :=
  ⟨(storage_errors "k" (by decide)).1 (some "k") ⟨some (JVal.jint 1), some 2, none⟩
      (JVal.jint 1) 2 [] "boom" rfl rfl (Or.inr rfl),
   (storage_errors "k" (by decide)).2.1 ⟨.get, some "k", some "7", none⟩ "T" none [] rfl,
   (storage_errors "k" (by decide)).2.2.2.2 ⟨none, some "t", some ⟨some "p", some "m", none⟩,
      none⟩ "t" ⟨some "p", some "m", none⟩ 0 "boom" [] rfl (by decide) rfl (by decide)⟩

/-! ## Invalid license identifiers -/

/-- C8 counterexample: a `POST /license` whose `user_id` is JSON `null` is a
non-integer input, but `int(None)` raises `TypeError`, which the
`except ValueError` does not catch — the outer handler answers 500, not the
claimed 400. -/
theorem license_invalid_input_counterexample :
    license "k" ⟨.post, some "k", none, some ⟨some JVal.jnull, some (JVal.jint 1)⟩⟩
        true "T" none [] = (LicResult.internalError, []) ∧
    licCode LicResult.internalError = 500 ∧
    licCode LicResult.internalError ≠ 400 := by decide

/-- C8 (amended): for the license operations (valid credential, store
available), a string `user_id`/`issued_by` that does not parse as an integer
fails with 400 leaving the collection unchanged; but a non-integer value of
a non-string type (JSON `null`) raises `TypeError` past the
`except ValueError` and yields 500 instead (still leaving the collection
unchanged). -/
theorem license_invalid_input (API_KEY : String) (hAK : API_KEY ≠ "") (now : String) :
    (∀ su s, su ≠ "" → pyParseInt su = none →
      license API_KEY ⟨.get, some API_KEY, some su, none⟩ true now none s
        = (LicResult.invalidUserIdFormat, s) ∧
      license API_KEY ⟨.delete, some API_KEY, some su, none⟩ true now none s
        = (LicResult.invalidUserIdFormat, s) ∧
      licCode LicResult.invalidUserIdFormat = 400) ∧
    (∀ su v s, pyParseInt su = none →
      license API_KEY ⟨.post, some API_KEY, none, some ⟨some (JVal.jstr su), some v⟩⟩
          true now none s
        = (LicResult.invalidIssueFormat, s) ∧
      licCode LicResult.invalidIssueFormat = 400) ∧
    (∀ uid v s, pyInt v = PyIntResult.valueError →
      license API_KEY ⟨.post, some API_KEY, none, some ⟨some (JVal.jint uid), some v⟩⟩
          true now none s
        = (LicResult.invalidIssueFormat, s)) ∧
    (∀ v s,
      license API_KEY ⟨.post, some API_KEY, none, some ⟨some JVal.jnull, some v⟩⟩
          true now none s
        = (LicResult.internalError, s) ∧
      licCode LicResult.internalError = 500) := by
  have hgate := license_gate_pass API_KEY hAK
  refine ⟨?_, ?_, ?_, ?_⟩
  · intro su s hne hparse
    have hsne : (su == "") = false := by simpa using hne
    refine ⟨?_, ?_, rfl⟩ <;>
      simp only [license, hgate, Bool.false_eq_true, if_false, if_true, hsne, hparse]
  · intro su v s hparse
    have hval : pyInt (JVal.jstr su) = PyIntResult.valueError := by
      simp [pyInt, hparse]
    refine ⟨?_, rfl⟩
    simp only [license, hgate, Bool.false_eq_true, if_false, if_true, hval]
  · intro uid v s hval
    simp only [license, hgate, Bool.false_eq_true, if_false, if_true, hval]
    rfl
  · intro v s
    refine ⟨?_, rfl⟩
    simp only [license, hgate, Bool.false_eq_true, if_false, if_true, pyInt]

/-- Witness for the amended C8: `user_id = "abc"` yields 400 on all three
operations; `user_id = null` yields 500 on issue; the store is unchanged. -/
theorem license_invalid_input_witness :
    (license "k" ⟨.get, some "k", some "abc", none⟩ true "T" none []
      = (LicResult.invalidUserIdFormat, []) ∧
     license "k" ⟨.delete, some "k", some "abc", none⟩ true "T" none []
      = (LicResult.invalidUserIdFormat, []) ∧
     licCode LicResult.invalidUserIdFormat = 400) ∧
    (license "k" ⟨.post, some "k", none, some ⟨some (JVal.jstr "abc"), some (JVal.jint 1)⟩⟩
        true "T" none [] = (LicResult.invalidIssueFormat, []) ∧
     licCode LicResult.invalidIssueFormat = 400) ∧
    (license "k" ⟨.post, some "k", none, some ⟨some JVal.jnull, some (JVal.jint 1)⟩⟩
        true "T" none [] = (LicResult.internalError, []) ∧
     licCode LicResult.internalError = 500) :=
  ⟨(license_invalid_input "k" (by decide) "T").1 "abc" [] (by decide) (by decide),
   (license_invalid_input "k" (by decide) "T").2.1 "abc" (JVal.jint 1) [] (by decide),
   (license_invalid_input "k" (by decide) "T").2.2.2 (JVal.jint 1) []⟩

end RoyalGuard
